import Mathlib

/-!
Shallow embedding of `server/api.go` from the `test-rpc-database` Mattermost
plugin.

The control flow of the Go code is translated directly.  The database itself,
the driver-level errors and the wall clock are abstracted into an explicit
environment `DBEnv` that says which database operation fails (each `Bool` or
`Option` field corresponds to one fallible call site in the Go code) and what
the measured wall-clock durations are.  Ghost fields of the outcome records
(`queries`, `rollbackAttempted`, `rollbackFailureLogged`, `pageSizeUsed`,
`sqlOpenCalled`) record observable events of the corresponding Go code so that
theorems can speak about them; they have no influence on the control flow.

Dialect handling: in the Go source the driver name only selects between two
SQL text variants (serial/auto-increment keyword and the placeholder style,
lines 182-199, 226-230, 276-280 of api.go); the SQL text itself is opaque to
this embedding, so `runDatabaseTest` takes the driver name but its semantics
does not branch on it.  The wrapped `%v` driver error texts inside
`fmt.Errorf` are likewise abstracted: each distinct `fmt.Errorf` site becomes
one `RunError` constructor carrying the site's fixed message prefix.
-/

/-- Constant `totalRecords` of `runDatabaseTest`, api.go line 176. -/
def totalRecords : Nat := 50000

/-- Payload of row `i`: the Go code inserts the string produced by
Sprintf of "Test data %d" applied to `i` (api.go line 241). -/
def testData (i : Nat) : String := "Test data " ++ toString i

/-- Rows that the insert loop of api.go lines 240-248 adds when the table
currently holds `count` rows: payloads for the indices
`count, count+1, ..., totalRecords - 1` in order. -/
def insertedRows (count : Nat) : List String :=
  (List.range (totalRecords - count)).map (fun k => testData (count + k))

/-- The `TestResult` struct of api.go lines 54-61.  The Go zero value has all
numeric fields `0` and all string fields empty, which the Lean defaults
mirror.  Durations (float64 seconds in Go) are embedded as rationals. -/
structure TestResult where
  insertTimeSeconds : Rat := 0
  totalQueryTimeSeconds : Rat := 0
  error : String := ""
  connType : String := ""
  recordsQueried : Nat := 0
  pageSize : Nat := 0
  deriving DecidableEq

/-- One constructor per `fmt.Errorf` site inside `runDatabaseTest`
(api.go lines 203, 211, 222, 236, 246, 252, 283, 292). -/
inductive RunError where
  | createTable
  | countCheck
  | beginTx
  | prepareStmt
  | insertRow (i : Nat)
  | commitTx
  | query (offset : Nat)
  | scanRow
  deriving DecidableEq

/-- Message prefix of each `fmt.Errorf` site (the `%v`-wrapped driver error is
abstracted away). -/
def RunError.message : RunError → String
  | .createTable => "failed to create table"
  | .countCheck => "failed to check record count"
  | .beginTx => "failed to begin transaction"
  | .prepareStmt => "failed to prepare statement"
  | .insertRow i => "failed to insert row " ++ toString i
  | .commitTx => "failed to commit transaction"
  | .query offset => "failed to query rows at offset " ++ toString offset
  | .scanRow => "failed to scan row"

/-- State of the `plugin_test_rpc` table: whether it exists and the list of
`data` column values in insertion (= `id`) order.  `SELECT COUNT(*)` is the
length of `table`. -/
structure DBState where
  tableExists : Bool := false
  table : List String := []
  deriving DecidableEq

/-- Fault and timing environment: one field per fallible database call site of
`runDatabaseTest`, plus the two measured durations.  `insertFailsAt = some j`
makes `insertStmt.Exec` fail at loop index `i = j` (it is only reached when
the loop actually visits `j`); `queryFailsAtOffset = some o` makes `db.Query`
fail at scan offset `o`; `scanFails` makes `rows.Scan` fail on the first row
read.  `rollbackFails` makes `tx.Rollback` fail (which the Go code only
logs). -/
structure DBEnv where
  createFails : Bool := false
  countFails : Bool := false
  beginFails : Bool := false
  prepareFails : Bool := false
  insertFailsAt : Option Nat := none
  commitFails : Bool := false
  queryFailsAtOffset : Option Nat := none
  scanFails : Bool := false
  rollbackFails : Bool := false
  insertDuration : Rat := 0
  queryDuration : Rat := 0
  deriving DecidableEq

/-- Loop index at which the insert loop fails, if any: the environment's
failing index is only hit when the loop `for i := count; i < totalRecords`
actually visits it. -/
def insertAttemptError (env : DBEnv) (count : Nat) : Option Nat :=
  match env.insertFailsAt with
  | some j => if count ≤ j ∧ j < totalRecords then some j else none
  | none => none

/-- Outcome of `runDatabaseTest`: the Go function returns
`(TestResult, error)`; the final database state and the ghost trace fields
are added so theorems can observe them.  `queries` lists the
`(offset, limit)` argument pairs of every `db.Query` call issued by the scan
loop, in order. -/
structure RunOutcome where
  result : TestResult
  err : Option RunError
  db : DBState
  queries : List (Nat × Nat)
  rollbackAttempted : Bool
  rollbackFailureLogged : Bool
  deriving DecidableEq

/-- Limit computation of one scan page (api.go lines 270-274):
`limit := batchSize`, clamped to `totalRecords - offset` when
`offset + batchSize > totalRecords`. -/
def pageLimit (offset b : Nat) : Nat :=
  if totalRecords < offset + b then totalRecords - offset else b

/-- The scan loop of api.go lines 266-296:
`for offset := 0; offset < totalRecords; offset += batchSize`, issuing a
query with limit `pageLimit offset b` at each offset.  Returns the
`(offset, limit)` pairs issued and the first error, if any.
The `0 < b` guard is needed for termination in Lean; the Go loop would not
terminate for `batchSize ≤ 0`, and all theorems assume a positive batch
size as the handlers guarantee. -/
def scanRun (env : DBEnv) (b : Nat) (offset : Nat) :
    List (Nat × Nat) × Option RunError :=
  if h : offset < totalRecords ∧ 0 < b then
    if env.queryFailsAtOffset = some offset then
      ([(offset, pageLimit offset b)], some (RunError.query offset))
    else if env.scanFails then
      ([(offset, pageLimit offset b)], some RunError.scanRow)
    else
      ((offset, pageLimit offset b) :: (scanRun env b (offset + b)).1,
        (scanRun env b (offset + b)).2)
  else ([], none)
termination_by totalRecords - offset
decreasing_by all_goals simp_wf; omega

/-- The scan phase of `runDatabaseTest` (api.go lines 260-302): sets
`result.PageSize`, runs the paginated scan, and on success records the scan
duration and `RecordsQueried = totalRecords`. -/
def scanPhase (env : DBEnv) (db : DBState) (batchSize : Nat)
    (result : TestResult) : RunOutcome :=
  let result := { result with pageSize := batchSize }
  let scanned := scanRun env batchSize 0
  match scanned.2 with
  | some e => ⟨result, some e, db, scanned.1, false, false⟩
  | none =>
      ⟨{ result with
          totalQueryTimeSeconds := env.queryDuration,
          recordsQueried := totalRecords },
        none, db, scanned.1, false, false⟩

/-- Embedding of `runDatabaseTest` (api.go lines 174-303).  Steps: create the
table if it does not exist; `SELECT COUNT(*)`; if the count is below
`totalRecords`, insert the missing rows inside one transaction (on prepare or
insert failure the transaction is rolled back, discarding the buffered rows,
and the original error is returned; on commit failure nothing is applied);
then run the paginated scan.  The per-row insert loop collapses to appending
`insertedRows count` on commit, since a rolled-back transaction leaves no
trace in the table. -/
def runDatabaseTest (env : DBEnv) (db : DBState) (driverName : String)
    (batchSize : Nat) : RunOutcome :=
  let result : TestResult := {}
  let _ := driverName
  if env.createFails then
    ⟨result, some RunError.createTable, db, [], false, false⟩
  else
    let db := { db with tableExists := true }
    if env.countFails then
      ⟨result, some RunError.countCheck, db, [], false, false⟩
    else
      let count := db.table.length
      if count < totalRecords then
        if env.beginFails then
          ⟨result, some RunError.beginTx, db, [], false, false⟩
        else if env.prepareFails then
          ⟨result, some RunError.prepareStmt, db, [], true, env.rollbackFails⟩
        else
          match insertAttemptError env count with
          | some j =>
              ⟨result, some (RunError.insertRow j), db, [], true,
                env.rollbackFails⟩
          | none =>
              if env.commitFails then
                ⟨result, some RunError.commitTx, db, [], false, false⟩
              else
                let db := { db with table := db.table ++ insertedRows count }
                let result :=
                  { result with insertTimeSeconds := env.insertDuration }
                scanPhase env db batchSize result
      else
        scanPhase env db batchSize result

/-- Embedding of Go's `strconv.Atoi`: an optional single leading `+` or `-`
followed by at least one ASCII digit and nothing else, with the 64-bit `int`
range check (out-of-range input makes `Atoi` return a non-nil error). -/
def atoi (s : String) : Option Int :=
  match s.toList with
  | [] => none
  | c :: rest =>
    let (neg, digits) :=
      if c = '-' then (true, rest)
      else if c = '+' then (false, rest)
      else (false, c :: rest)
    if digits = [] ∨ ¬ digits.all Char.isDigit then none
    else
      let n : Nat := digits.foldl (fun acc d => acc * 10 + (d.toNat - 48)) 0
      let v : Int := if neg then -(n : Int) else (n : Int)
      if v < -(2 ^ 63) ∨ 2 ^ 63 - 1 < v then none else some v

/-- The page-size parsing block shared verbatim by both handlers
(api.go lines 66-72 and 106-112): default 100, overridden by the `page_size`
query parameter only when it is non-empty, `Atoi` succeeds and the value is
positive.  The absent query parameter reads as the empty string in Go. -/
def parsePageSize (param : String) : Int :=
  let pageSize : Int := 100
  if param ≠ "" then
    match atoi param with
    | some size => if 0 < size then size else pageSize
    | none => pageSize
  else pageSize

/-- An HTTP response of the two test endpoints: status code and the
JSON-encoded `TestResult` body. -/
structure HttpResponse where
  status : Nat
  body : TestResult
  deriving DecidableEq

/-- Environment of the `TestDatabase` handler: whether `store.GetMasterDB`
fails, the host-reported driver name, and the database fault environment and
state. -/
structure RpcEnv where
  getMasterDBFails : Bool := false
  driverName : String := "postgres"
  dbEnv : DBEnv := {}
  db : DBState := {}
  deriving DecidableEq

/-- Outcome of the `TestDatabase` handler, with the ghost `pageSizeUsed`
recording the handler's local `pageSize` variable (the batch size passed to
`runDatabaseTest`). -/
structure RpcOutcome where
  response : HttpResponse
  pageSizeUsed : Int
  deriving DecidableEq

/-- Embedding of the `TestDatabase` handler (api.go lines 64-101), the RPC
path: parse the page size, get the master database handle from the store
service, run the benchmark, and serialize.  On any error the handler builds a
fresh `TestResult` holding only the error text and the connection type. -/
def testDatabase (env : RpcEnv) (pageSizeParam : String) : RpcOutcome :=
  let pageSize := parsePageSize pageSizeParam
  if env.getMasterDBFails then
    ⟨⟨500, { error := "Failed to get database", connType := "rpc" }⟩,
      pageSize⟩
  else
    let o := runDatabaseTest env.dbEnv env.db env.driverName pageSize.toNat
    match o.err with
    | some e =>
        ⟨⟨500, { error := e.message, connType := "rpc" }⟩, pageSize⟩
    | none =>
        ⟨⟨200, { o.result with connType := "rpc" }⟩, pageSize⟩

/-- Constant `model.DatabaseDriverMysql` of the Mattermost public model
package. -/
def databaseDriverMysql : String := "mysql"

/-- Constant `model.DatabaseDriverPostgres` of the Mattermost public model
package. -/
def databaseDriverPostgres : String := "postgres"

/-- The `SqlSettings` portion of the unsanitized host configuration used by
the raw path. -/
structure SqlSettings where
  driverName : String
  dataSource : String
  deriving DecidableEq

/-- Environment of the `TestDatabaseRaw` handler: the unsanitized config
(`none` models a nil `GetUnsanitizedConfig` result), whether `sql.Open`
fails, and the database fault environment and state. -/
structure RawEnv where
  config : Option SqlSettings := some ⟨"postgres", "dsn"⟩
  openFails : Bool := false
  dbEnv : DBEnv := {}
  db : DBState := {}
  deriving DecidableEq

/-- Outcome of the `TestDatabaseRaw` handler.  Ghost fields: `pageSizeUsed`
records the handler's local `pageSize` variable and `sqlOpenCalled` records
whether `sql.Open` was invoked. -/
structure RawOutcome where
  response : HttpResponse
  pageSizeUsed : Int
  sqlOpenCalled : Bool
  deriving DecidableEq

/-- Embedding of the `TestDatabaseRaw` handler (api.go lines 104-171), the
raw path: parse the page size, read the unsanitized config, switch on the
configured driver name (`sql.Open` is called only in the two supported
cases; the default case answers with the unsupported-driver error), then run
the benchmark over the direct connection. -/
def testDatabaseRaw (env : RawEnv) (pageSizeParam : String) : RawOutcome :=
  let pageSize := parsePageSize pageSizeParam
  match env.config with
  | none =>
      ⟨⟨500, { error := "Failed to get server configuration",
                connType := "raw" }⟩, pageSize, false⟩
  | some config =>
      if config.driverName = databaseDriverMysql ∨
          config.driverName = databaseDriverPostgres then
        if env.openFails then
          ⟨⟨500, { error := "Failed to connect to database",
                    connType := "raw" }⟩, pageSize, true⟩
        else
          let o := runDatabaseTest env.dbEnv env.db config.driverName
                    pageSize.toNat
          match o.err with
          | some e =>
              ⟨⟨500, { error := e.message, connType := "raw" }⟩,
                pageSize, true⟩
          | none =>
              ⟨⟨200, { o.result with connType := "raw" }⟩, pageSize, true⟩
      else
        ⟨⟨500, { error := "Unsupported database driver: " ++
                    config.driverName, connType := "raw" }⟩,
          pageSize, false⟩

/-- Response of the `/hello` route: status, plain-text body, and the ghost
flag recording whether the wrapped `HelloWorld` handler was invoked. -/
structure HelloOutcome where
  status : Nat
  body : String
  handlerInvoked : Bool
  deriving DecidableEq

/-- The `HelloWorld` handler (api.go lines 47-52): writes the literal
greeting with the implicit 200 status (the write is assumed to succeed). -/
def helloWorld : HelloOutcome :=
  ⟨200, "Hello, world!", true⟩

/-- The `MattermostAuthorizationRequired` middleware (api.go lines 35-45):
if the `Mattermost-User-ID` header is empty, answer 401 via `http.Error`
(which appends a newline to the message) without calling the wrapped
handler; otherwise pass through. -/
def mattermostAuthorizationRequired (next : HelloOutcome) (userID : String) :
    HelloOutcome :=
  if userID = "" then ⟨401, "Not authorized\n", false⟩
  else next

/-- The protected `/api/v1/hello` route: the middleware wrapping
`HelloWorld`, applied to the request's `Mattermost-User-ID` header value. -/
def helloEndpoint (userID : String) : HelloOutcome :=
  mattermostAuthorizationRequired helloWorld userID

/-- A concrete table state holding one row more than the target, used to
probe the behaviour of `runDatabaseTest` on an over-full table. -/
def dbOverTarget : DBState :=
  ⟨false, List.replicate (totalRecords + 1) "x"⟩

/-! ### Lemmas about the scan loop -/

/-- Element characterization of the scan loop: the `i`-th query issued from
start offset `off` has offset `off + i * b` (below the target) and the
clamped page limit. -/
theorem scanRun_elem (env : DBEnv) (b : Nat) :
    ∀ (off i : Nat), i < (scanRun env b off).1.length →
      (scanRun env b off).1[i]? =
        some (off + i * b, pageLimit (off + i * b) b) ∧
      off + i * b < totalRecords := by
  intro off i
  induction i generalizing off with
  | zero =>
    intro hi
    rw [scanRun] at hi ⊢
    by_cases hcond : off < totalRecords ∧ 0 < b
    · rw [dif_pos hcond] at hi ⊢
      by_cases hq : env.queryFailsAtOffset = some off
      · rw [if_pos hq]
        simp [hcond.1]
      · rw [if_neg hq]
        by_cases hs : env.scanFails = true
        · rw [if_pos hs]
          simp [hcond.1]
        · rw [if_neg hs]
          simp [hcond.1]
    · rw [dif_neg hcond] at hi
      simp at hi
  | succ i ih =>
    intro hi
    rw [scanRun] at hi ⊢
    by_cases hcond : off < totalRecords ∧ 0 < b
    · rw [dif_pos hcond] at hi ⊢
      by_cases hq : env.queryFailsAtOffset = some off
      · rw [if_pos hq] at hi
        simp at hi
      · rw [if_neg hq] at hi ⊢
        by_cases hs : env.scanFails = true
        · rw [if_pos hs] at hi
          simp at hi
        · rw [if_neg hs] at hi ⊢
          simp only [List.length_cons] at hi
          have hi2 : i < (scanRun env b (off + b)).1.length := by omega
          have harith : off + b + i * b = off + (i + 1) * b := by ring
          have := ih (off + b) hi2
          rw [harith] at this
          simpa using this
    · rw [dif_neg hcond] at hi
      simp at hi

/-- Completeness of the scan loop on success: every offset `off + k * b`
below the target is actually visited. -/
theorem scanRun_complete (env : DBEnv) (b : Nat) (hb : 0 < b) :
    ∀ (off k : Nat), (scanRun env b off).2 = none →
      off + k * b < totalRecords → k < (scanRun env b off).1.length := by
  intro off k
  induction k generalizing off with
  | zero =>
    intro hnone hk
    rw [scanRun] at hnone ⊢
    have hcond : off < totalRecords ∧ 0 < b := ⟨by omega, hb⟩
    rw [dif_pos hcond] at hnone ⊢
    by_cases hq : env.queryFailsAtOffset = some off
    · rw [if_pos hq] at hnone
      simp at hnone
    · rw [if_neg hq] at hnone ⊢
      by_cases hs : env.scanFails = true
      · rw [if_pos hs] at hnone
        simp at hnone
      · rw [if_neg hs]
        simp
  | succ i ih =>
    intro hnone hk
    rw [scanRun] at hnone ⊢
    have hcond : off < totalRecords ∧ 0 < b := ⟨by nlinarith, hb⟩
    rw [dif_pos hcond] at hnone ⊢
    by_cases hq : env.queryFailsAtOffset = some off
    · rw [if_pos hq] at hnone
      simp at hnone
    · rw [if_neg hq] at hnone ⊢
      by_cases hs : env.scanFails = true
      · rw [if_pos hs] at hnone
        simp at hnone
      · rw [if_neg hs] at hnone ⊢
        simp only [List.length_cons]
        have harith : off + b + i * b = off + (i + 1) * b := by ring
        have := ih (off + b) (by simpa using hnone) (by omega)
        omega

/-- If neither scan-time fault is armed, the scan loop succeeds. -/
theorem scanRun_snd_none (env : DBEnv) (b : Nat)
    (hq : env.queryFailsAtOffset = none) (hs : env.scanFails = false)
    (off : Nat) : (scanRun env b off).2 = none := by
  rw [scanRun]
  by_cases hcond : off < totalRecords ∧ 0 < b
  · rw [dif_pos hcond]
    rw [if_neg (by simp [hq]), if_neg (by simp [hs])]
    exact scanRun_snd_none env b hq hs (off + b)
  · rw [dif_neg hcond]
termination_by totalRecords - off
decreasing_by simp_wf; omega

/-! ### Lemmas about the phases of `runDatabaseTest` -/

/-- Characterization of the scan phase: it never touches the table, sets the
page size, propagates the first scan error, and on success reports
`recordsQueried = totalRecords`. -/
theorem scanPhase_spec (env : DBEnv) (db : DBState) (b : Nat)
    (result : TestResult) :
    (scanPhase env db b result).db = db ∧
    (scanPhase env db b result).err = (scanRun env b 0).2 ∧
    (scanPhase env db b result).queries = (scanRun env b 0).1 ∧
    (scanPhase env db b result).result.pageSize = b ∧
    (scanPhase env db b result).result.insertTimeSeconds =
      result.insertTimeSeconds ∧
    ((scanRun env b 0).2 = none →
      (scanPhase env db b result).result.recordsQueried = totalRecords) := by
  unfold scanPhase
  cases h : (scanRun env b 0).2 <;> simp [h]

/-- Reduction of `runDatabaseTest` on the successful-insert path. -/
theorem run_insert_branch (env : DBEnv) (db : DBState) (d : String) (b : Nat)
    (h1 : env.createFails = false) (h2 : env.countFails = false)
    (h3 : db.table.length < totalRecords) (h4 : env.beginFails = false)
    (h5 : env.prepareFails = false)
    (h6 : insertAttemptError env db.table.length = none)
    (h7 : env.commitFails = false) :
    runDatabaseTest env db d b =
      scanPhase env ⟨true, db.table ++ insertedRows db.table.length⟩ b
        { insertTimeSeconds := env.insertDuration } := by
  simp [runDatabaseTest, h1, h2, h3, h4, h5, h6, h7]

/-- Reduction of `runDatabaseTest` when the table is already at or above the
target: no transaction is begun and the scan runs on the unchanged table. -/
theorem run_noinsert_branch (env : DBEnv) (db : DBState) (d : String)
    (b : Nat) (h1 : env.createFails = false) (h2 : env.countFails = false)
    (h3 : totalRecords ≤ db.table.length) :
    runDatabaseTest env db d b = scanPhase env ⟨true, db.table⟩ b {} := by
  simp [runDatabaseTest, h1, h2, show ¬db.table.length < totalRecords by omega]

/-- Reduction of `runDatabaseTest` when `tx.Prepare` fails: rollback is
attempted, the prepare error is returned, and the table is untouched. -/
theorem run_prepare_fail (env : DBEnv) (db : DBState) (d : String) (b : Nat)
    (h1 : env.createFails = false) (h2 : env.countFails = false)
    (h3 : db.table.length < totalRecords) (h4 : env.beginFails = false)
    (h5 : env.prepareFails = true) :
    runDatabaseTest env db d b =
      ⟨{}, some RunError.prepareStmt, ⟨true, db.table⟩, [], true,
        env.rollbackFails⟩ := by
  simp [runDatabaseTest, h1, h2, h3, h4, h5]

/-- Reduction of `runDatabaseTest` when `insertStmt.Exec` fails at loop index
`j`: rollback is attempted, the insert error is returned, and the table is
untouched. -/
theorem run_insert_fail (env : DBEnv) (db : DBState) (d : String) (b : Nat)
    (j : Nat) (h1 : env.createFails = false) (h2 : env.countFails = false)
    (h3 : db.table.length < totalRecords) (h4 : env.beginFails = false)
    (h5 : env.prepareFails = false)
    (h6 : insertAttemptError env db.table.length = some j) :
    runDatabaseTest env db d b =
      ⟨{}, some (RunError.insertRow j), ⟨true, db.table⟩, [], true,
        env.rollbackFails⟩ := by
  simp [runDatabaseTest, h1, h2, h3, h4, h5, h6]

/-- Master characterization of a successful `runDatabaseTest` call: the
queries issued are those of a clean scan from offset 0, the result carries
the page size and the fixed record count, and the final table is the initial
one extended by exactly the missing rows (or untouched when the table was
already at or above the target, in which case the insert duration stays 0). -/
theorem run_spec (env : DBEnv) (db : DBState) (d : String) (b : Nat)
    (hsucc : (runDatabaseTest env db d b).err = none) :
    (runDatabaseTest env db d b).queries = (scanRun env b 0).1 ∧
    (scanRun env b 0).2 = none ∧
    (runDatabaseTest env db d b).result.recordsQueried = totalRecords ∧
    (runDatabaseTest env db d b).result.pageSize = b ∧
    (db.table.length < totalRecords →
      (runDatabaseTest env db d b).db.table =
          db.table ++ insertedRows db.table.length ∧
      (runDatabaseTest env db d b).result.insertTimeSeconds =
          env.insertDuration) ∧
    (totalRecords ≤ db.table.length →
      (runDatabaseTest env db d b).db.table = db.table ∧
      (runDatabaseTest env db d b).result.insertTimeSeconds = 0) := by
  by_cases h1 : env.createFails = true
  · simp [runDatabaseTest, h1] at hsucc
  simp only [Bool.not_eq_true] at h1
  by_cases h2 : env.countFails = true
  · simp [runDatabaseTest, h1, h2] at hsucc
  simp only [Bool.not_eq_true] at h2
  by_cases h3 : db.table.length < totalRecords
  · by_cases h4 : env.beginFails = true
    · simp [runDatabaseTest, h1, h2, h3, h4] at hsucc
    simp only [Bool.not_eq_true] at h4
    by_cases h5 : env.prepareFails = true
    · rw [run_prepare_fail env db d b h1 h2 h3 h4 h5] at hsucc
      simp at hsucc
    simp only [Bool.not_eq_true] at h5
    cases h6 : insertAttemptError env db.table.length with
    | some j =>
      rw [run_insert_fail env db d b j h1 h2 h3 h4 h5 h6] at hsucc
      simp at hsucc
    | none =>
      by_cases h7 : env.commitFails = true
      · simp [runDatabaseTest, h1, h2, h3, h4, h5, h6, h7] at hsucc
      simp only [Bool.not_eq_true] at h7
      rw [run_insert_branch env db d b h1 h2 h3 h4 h5 h6 h7] at hsucc ⊢
      have hs := scanPhase_spec env
        ⟨true, db.table ++ insertedRows db.table.length⟩ b
        { insertTimeSeconds := env.insertDuration }
      obtain ⟨hdb, herr, hq, hps, hit, hrq⟩ := hs
      have hnone : (scanRun env b 0).2 = none := by rw [← herr]; exact hsucc
      refine ⟨hq, hnone, hrq hnone, hps, fun _ => ⟨?_, ?_⟩, fun hge => ?_⟩
      · rw [hdb]
      · rw [hit]
      · omega
  · have h3ge : totalRecords ≤ db.table.length := by omega
    rw [run_noinsert_branch env db d b h1 h2 h3ge] at hsucc ⊢
    have hs := scanPhase_spec env ⟨true, db.table⟩ b {}
    obtain ⟨hdb, herr, hq, hps, hit, hrq⟩ := hs
    have hnone : (scanRun env b 0).2 = none := by rw [← herr]; exact hsucc
    refine ⟨hq, hnone, hrq hnone, hps, fun hlt => ?_, fun _ => ⟨?_, ?_⟩⟩
    · omega
    · rw [hdb]
    · rw [hit]

/-- The insert phase adds exactly the number of missing rows. -/
theorem insertedRows_length (c : Nat) :
    (insertedRows c).length = totalRecords - c := by
  simp [insertedRows]

/-- A successful run starting at or below the target leaves the table at
exactly the target row count. -/
theorem run_table_length (env : DBEnv) (db : DBState) (d : String) (b : Nat)
    (hsucc : (runDatabaseTest env db d b).err = none)
    (hle : db.table.length ≤ totalRecords) :
    (runDatabaseTest env db d b).db.table.length = totalRecords := by
  obtain ⟨-, -, -, -, hlt, hge⟩ := run_spec env db d b hsucc
  by_cases h : db.table.length < totalRecords
  · obtain ⟨htab, -⟩ := hlt h
    rw [htab]
    simp [insertedRows_length]
    omega
  · obtain ⟨htab, -⟩ := hge (by omega)
    rw [htab]
    omega

/-- Claim C1: on a successful run, a starting count strictly below the
target of 50000 leads to exactly `50000 - count` inserted rows, appended in
order with payloads `testData count, ..., testData 49999`; a starting count
at or above the target leads to zero inserts and an insert duration reported
as 0. -/
theorem claim_C1 (env : DBEnv) (db : DBState) (d : String) (b : Nat)
    (hb : 0 < b) (hsucc : (runDatabaseTest env db d b).err = none) :
    (db.table.length < 50000 →
      (runDatabaseTest env db d b).db.table =
        db.table ++ insertedRows db.table.length ∧
      (insertedRows db.table.length).length = 50000 - db.table.length) ∧
    (50000 ≤ db.table.length →
      (runDatabaseTest env db d b).db.table = db.table ∧
      (runDatabaseTest env db d b).result.insertTimeSeconds = 0) := by
  obtain ⟨-, -, -, -, hlt, hge⟩ := run_spec env db d b hsucc
  exact ⟨fun h => ⟨(hlt h).1, insertedRows_length _⟩, hge⟩

/-- A fault-free environment makes `runDatabaseTest` succeed from an empty
table: helper for discharging success hypotheses at concrete inputs. -/
theorem run_ok_empty (b : Nat) :
    (runDatabaseTest {} {} "postgres" b).err = none := by
  rw [run_insert_branch {} {} "postgres" b rfl rfl (by decide) rfl rfl rfl
    rfl]
  rw [(scanPhase_spec _ _ _ _).2.1]
  exact scanRun_snd_none _ _ rfl rfl 0

/-- Witness for claim C1: running on an empty table with page size 50000
succeeds, and the theorem applies. -/
theorem claim_C1_witness :
    (runDatabaseTest {} {} "postgres" 50000).db.table =
      ({} : DBState).table ++ insertedRows ({} : DBState).table.length :=
  (((claim_C1 {} {} "postgres" 50000 (by decide) (run_ok_empty 50000)).1)
    (by decide)).1

/-- Claim C2: when `tx.Prepare` fails, or an insert fails at a loop index
`j` that the loop actually visits, the routine attempts a rollback (a
rollback failure is only logged, never surfaced), returns the original
prepare/insert error, and the table is exactly as before the call — no
partial commit.  The environment's `rollbackFails` flag is arbitrary. -/
theorem claim_C2 (env : DBEnv) (db : DBState) (d : String) (b : Nat)
    (h1 : env.createFails = false) (h2 : env.countFails = false)
    (h3 : db.table.length < totalRecords) (h4 : env.beginFails = false) :
    (env.prepareFails = true →
      (runDatabaseTest env db d b).err = some RunError.prepareStmt ∧
      (runDatabaseTest env db d b).rollbackAttempted = true ∧
      (runDatabaseTest env db d b).rollbackFailureLogged =
        env.rollbackFails ∧
      (runDatabaseTest env db d b).db.table = db.table) ∧
    (∀ j, env.prepareFails = false → env.insertFailsAt = some j →
      db.table.length ≤ j → j < totalRecords →
      (runDatabaseTest env db d b).err = some (RunError.insertRow j) ∧
      (runDatabaseTest env db d b).rollbackAttempted = true ∧
      (runDatabaseTest env db d b).rollbackFailureLogged =
        env.rollbackFails ∧
      (runDatabaseTest env db d b).db.table = db.table) := by
  constructor
  · intro h5
    rw [run_prepare_fail env db d b h1 h2 h3 h4 h5]
    exact ⟨rfl, rfl, rfl, rfl⟩
  · intro j h5 hj hle hlt
    have h6 : insertAttemptError env db.table.length = some j := by
      simp [insertAttemptError, hj, hle, hlt]
    rw [run_insert_fail env db d b j h1 h2 h3 h4 h5 h6]
    exact ⟨rfl, rfl, rfl, rfl⟩

/-- Witness for claim C2: a failing insert at row 7 on an empty table, with
a rollback that itself fails, still returns the insert error and leaves the
table empty. -/
theorem claim_C2_witness :
    (runDatabaseTest { insertFailsAt := some 7, rollbackFails := true } {}
        "postgres" 100).err = some (RunError.insertRow 7) ∧
    (runDatabaseTest { insertFailsAt := some 7, rollbackFails := true } {}
        "postgres" 100).db.table = ({} : DBState).table :=
  have h := (claim_C2 { insertFailsAt := some 7, rollbackFails := true } {}
    "postgres" 100 rfl rfl (by decide) rfl).2 7 rfl rfl (by decide)
    (by decide)
  ⟨h.1, h.2.2.2⟩

/-- Claim C4: every successful benchmark run reports
`records_queried = 50000`, for every positive page size and every starting
table. -/
theorem claim_C4 (env : DBEnv) (db : DBState) (d : String) (b : Nat)
    (hb : 0 < b) (hsucc : (runDatabaseTest env db d b).err = none) :
    (runDatabaseTest env db d b).result.recordsQueried = 50000 :=
  (run_spec env db d b hsucc).2.2.1

/-- Witness for claim C4 at page size 100. -/
theorem claim_C4_witness :
    (runDatabaseTest {} {} "postgres" 100).result.recordsQueried = 50000 :=
  claim_C4 {} {} "postgres" 100 (by decide) (run_ok_empty 100)

/-- Counterexample to claim C6 as stated: starting from a table that
already holds 50001 rows, the run succeeds but the row count stays at
50001 — it does not converge to exactly 50000, because the routine never
deletes rows. -/
theorem claim_C6_counterexample :
    (runDatabaseTest {} dbOverTarget "postgres" 100).err = none ∧
    (runDatabaseTest {} dbOverTarget "postgres" 100).db.table.length ≠
      50000 := by
  have hlen : dbOverTarget.table.length = totalRecords + 1 := by
    show (List.replicate (totalRecords + 1) "x").length = totalRecords + 1
    rw [List.length_replicate]
  have hge : totalRecords ≤ dbOverTarget.table.length := by omega
  have hrun := run_noinsert_branch {} dbOverTarget "postgres" 100 rfl rfl hge
  obtain ⟨hdb, herr, -, -, -, -⟩ :=
    scanPhase_spec {} ⟨true, dbOverTarget.table⟩ 100 {}
  constructor
  · rw [hrun, herr]
    exact scanRun_snd_none _ _ rfl rfl 0
  · rw [hrun, hdb]
    show dbOverTarget.table.length ≠ 50000
    rw [hlen]
    norm_num [totalRecords]

/-- Claim C6, amended: repeated successful calls cause no runaway row
growth — for every starting row count at most the target, a successful call
leaves the table at exactly 50000 rows and every subsequent successful call
keeps it there; for starting counts above the target the table is left
unchanged (the routine never deletes rows, so such a table stays above the
target rather than converging down to it). -/
theorem claim_C6_amended (env : DBEnv) (db : DBState) (d : String) (b : Nat)
    (hb : 0 < b) (hsucc : (runDatabaseTest env db d b).err = none) :
    (db.table.length ≤ 50000 →
      (runDatabaseTest env db d b).db.table.length = 50000 ∧
      ∀ (env2 : DBEnv) (d2 : String) (b2 : Nat), 0 < b2 →
        (runDatabaseTest env2 (runDatabaseTest env db d b).db d2 b2).err =
          none →
        (runDatabaseTest env2 (runDatabaseTest env db d b).db d2
            b2).db.table.length = 50000) ∧
    (50000 ≤ db.table.length →
      (runDatabaseTest env db d b).db.table = db.table) := by
  constructor
  · intro hle
    have h1 := run_table_length env db d b hsucc hle
    refine ⟨h1, fun env2 d2 b2 hb2 hsucc2 => ?_⟩
    exact run_table_length env2 _ d2 b2 hsucc2 (by omega)
  · intro hge
    exact ((run_spec env db d b hsucc).2.2.2.2.2 hge).1

/-- Witness for the amended claim C6: from the empty table, one successful
call reaches exactly 50000 rows. -/
theorem claim_C6_amended_witness :
    (runDatabaseTest {} {} "postgres" 100).db.table.length = 50000 :=
  ((claim_C6_amended {} {} "postgres" 100 (by decide)
    (run_ok_empty 100)).1 (by decide)).1

/-- Claim C3: on a successful run with positive page size `b`, the scan
phase issues queries exactly at offsets `0, b, 2b, ...` strictly below
50000; each query's limit is `b` except on the final page, where it is
clamped to `50000 - offset` (and is then strictly smaller than `b`, which
happens whenever `b` does not divide 50000); no query's offset-plus-limit
exceeds 50000. -/
theorem claim_C3 (env : DBEnv) (db : DBState) (d : String) (b : Nat)
    (hb : 0 < b) (hsucc : (runDatabaseTest env db d b).err = none) :
    ∀ qs, qs = (runDatabaseTest env db d b).queries →
      (∀ i, i < qs.length → qs[i]? = some (i * b, pageLimit (i * b) b)) ∧
      (∀ q ∈ qs, q.1 < 50000 ∧ q.1 + q.2 ≤ 50000 ∧
        (q.1 + b ≤ 50000 → q.2 = b) ∧
        (50000 < q.1 + b → q.2 = 50000 - q.1)) ∧
      (∀ k, k * b < 50000 → k < qs.length) ∧
      (¬ b ∣ 50000 → 0 < qs.length ∧
        ∀ h2 : qs.length - 1 < qs.length,
          (qs.get ⟨qs.length - 1, h2⟩).2 < b) := by
  intro qs hqs
  obtain ⟨hq, hnone, -, -, -, -⟩ := run_spec env db d b hsucc
  rw [hq] at hqs
  subst hqs
  have helem : ∀ i, i < (scanRun env b 0).1.length →
      (scanRun env b 0).1[i]? = some (i * b, pageLimit (i * b) b) ∧
      i * b < totalRecords := by
    intro i hi
    have h := scanRun_elem env b 0 i hi
    simpa using h
  have hcompl : ∀ k, k * b < 50000 → k < (scanRun env b 0).1.length := by
    intro k hk
    exact scanRun_complete env b hb 0 k hnone (by simpa using hk)
  refine ⟨fun i hi => (helem i hi).1, ?_, hcompl, ?_⟩
  · intro q hmem
    obtain ⟨⟨i, hi⟩, hget⟩ := List.mem_iff_get.mp hmem
    have h := helem i hi
    have hq2 : q = (i * b, pageLimit (i * b) b) := by
      have := List.getElem?_eq_getElem hi
      rw [this] at h
      have hg : (scanRun env b 0).1.get ⟨i, hi⟩ = (scanRun env b 0).1[i] :=
        List.get_eq_getElem _ _
      rw [← hget, hg]
      exact Option.some.inj h.1
    have hbound : i * b < totalRecords := h.2
    rw [hq2]
    simp only [pageLimit]
    rw [show totalRecords = 50000 from rfl] at hbound ⊢
    split_ifs with hsplit
    · exact ⟨hbound, by omega, by omega, by omega⟩
    · exact ⟨hbound, by omega, by omega, by omega⟩
  · intro hdvd
    have hlen0 : 0 < (scanRun env b 0).1.length := hcompl 0 (by omega)
    refine ⟨hlen0, fun h2 => ?_⟩
    set len := (scanRun env b 0).1.length with hlendef
    have hnotlt : ¬ len * b < 50000 := by
      intro hlt
      exact absurd (hcompl len hlt) (by omega)
    have hne : len * b ≠ 50000 := by
      intro heq
      exact hdvd ⟨len, by rw [← heq]; ring⟩
    have hgt : 50000 < len * b := by omega
    have h := helem (len - 1) h2
    have hgeteq : (scanRun env b 0).1.get ⟨len - 1, h2⟩ =
        ((len - 1) * b, pageLimit ((len - 1) * b) b) := by
      have hsome := List.getElem?_eq_getElem h2
      rw [hsome] at h
      have hg : (scanRun env b 0).1.get ⟨len - 1, h2⟩ =
          (scanRun env b 0).1[len - 1] := List.get_eq_getElem _ _
      rw [hg]
      exact Option.some.inj h.1
    rw [hgeteq]
    have hbound : (len - 1) * b < totalRecords := h.2
    rw [show totalRecords = 50000 from rfl] at hbound
    have hsucc2 : (len - 1) * b + b = len * b := by
      have hl : len - 1 + 1 = len := by omega
      calc (len - 1) * b + b = (len - 1 + 1) * b := by ring
        _ = len * b := by rw [hl]
    simp only [pageLimit]
    rw [show totalRecords = 50000 from rfl]
    rw [if_pos (by omega)]
    omega

/-- Witness for claim C3 at page size 300 (which does not divide 50000) on
an empty table: the theorem applies; in particular at least one query is
issued. -/
theorem claim_C3_witness :
    0 < (runDatabaseTest {} {} "postgres" 300).queries.length :=
  ((claim_C3 {} {} "postgres" 300 (by decide) (run_ok_empty 300)
    (runDatabaseTest {} {} "postgres" 300).queries rfl).2.2.1) 0 (by decide)

/-! ### Lemmas about the HTTP handlers -/

/-- The RPC handler's page size ghost always equals the parsed page size. -/
theorem testDatabase_pageSizeUsed (env : RpcEnv) (param : String) :
    (testDatabase env param).pageSizeUsed = parsePageSize param := by
  unfold testDatabase
  by_cases h : env.getMasterDBFails = true <;>
    cases herr : (runDatabaseTest env.dbEnv env.db env.driverName
      (parsePageSize param).toNat).err <;>
    simp [h, herr]

/-- The raw handler's page size ghost always equals the parsed page size. -/
theorem testDatabaseRaw_pageSizeUsed (env : RawEnv) (param : String) :
    (testDatabaseRaw env param).pageSizeUsed = parsePageSize param := by
  unfold testDatabaseRaw
  cases hc : env.config with
  | none => simp
  | some cfg =>
    by_cases hd : cfg.driverName = databaseDriverMysql ∨
        cfg.driverName = databaseDriverPostgres
    · by_cases ho : env.openFails = true
      · simp [hd, ho]
      · simp only [Bool.not_eq_true] at ho
        cases herr : (runDatabaseTest env.dbEnv env.db cfg.driverName
          (parsePageSize param).toNat).err <;> simp [hd, ho, herr]
    · simp [hd]

/-- An absent, malformed, or non-positive `page_size` parameter parses to
the default 100. -/
theorem parsePageSize_default (param : String)
    (h : param = "" ∨ atoi param = none ∨
      ∃ v, atoi param = some v ∧ v ≤ 0) :
    parsePageSize param = 100 := by
  unfold parsePageSize
  rcases h with h | h | ⟨v, hv, hle⟩
  · simp [h]
  · by_cases he : param = ""
    · simp [he]
    · simp [he, h]
  · by_cases he : param = ""
    · simp [he]
    · simp [he, hv, show ¬(0 < v) by omega]

/-- A positive parse of the `page_size` parameter is used as given. -/
theorem parsePageSize_pos (param : String) (v : Int)
    (hv : atoi param = some v) (hpos : 0 < v) :
    parsePageSize param = v := by
  have hne : param ≠ "" := by
    intro he
    rw [he] at hv
    have hnone : atoi "" = none := rfl
    rw [hnone] at hv
    cases hv
  unfold parsePageSize
  simp [hne, hv, hpos]

/-- Claim C7: for both test endpoints, the page size used is the default
100 whenever the `page_size` parameter is absent, unparseable, or parses to
a non-positive value, and is the supplied value whenever it parses to a
positive integer. -/
theorem claim_C7 (rpcEnv : RpcEnv) (rawEnv : RawEnv) (param : String) :
    ((param = "" ∨ atoi param = none ∨
        ∃ v, atoi param = some v ∧ v ≤ 0) →
      (testDatabase rpcEnv param).pageSizeUsed = 100 ∧
      (testDatabaseRaw rawEnv param).pageSizeUsed = 100) ∧
    (∀ v : Int, atoi param = some v → 0 < v →
      (testDatabase rpcEnv param).pageSizeUsed = v ∧
      (testDatabaseRaw rawEnv param).pageSizeUsed = v) := by
  constructor
  · intro h
    rw [testDatabase_pageSizeUsed, testDatabaseRaw_pageSizeUsed,
      parsePageSize_default param h]
    exact ⟨rfl, rfl⟩
  · intro v hv hpos
    rw [testDatabase_pageSizeUsed, testDatabaseRaw_pageSizeUsed,
      parsePageSize_pos param v hv hpos]
    exact ⟨rfl, rfl⟩

/-- Witness for claim C7: `page_size=7` is used as 7 on the RPC endpoint,
and an absent parameter falls back to 100 on the raw endpoint. -/
theorem claim_C7_witness :
    (testDatabase {} "7").pageSizeUsed = 7 ∧
    (testDatabaseRaw {} "").pageSizeUsed = 100 :=
  ⟨((claim_C7 {} {} "7").2 7 (by decide) (by decide)).1,
   ((claim_C7 {} {} "").1 (Or.inl rfl)).2⟩

/-- Claim C5: on the raw path, a configured driver other than `mysql` or
`postgres` makes the handler answer with the explicit unsupported-driver
error, and `sql.Open` is never called. -/
theorem claim_C5 (env : RawEnv) (cfg : SqlSettings) (param : String)
    (hc : env.config = some cfg)
    (hm : cfg.driverName ≠ databaseDriverMysql)
    (hp : cfg.driverName ≠ databaseDriverPostgres) :
    (testDatabaseRaw env param).response.status = 500 ∧
    (testDatabaseRaw env param).response.body.error =
      "Unsupported database driver: " ++ cfg.driverName ∧
    (testDatabaseRaw env param).sqlOpenCalled = false := by
  unfold testDatabaseRaw
  simp only [hc]
  rw [if_neg (by simp [hm, hp])]
  exact ⟨rfl, rfl, rfl⟩

/-- Witness for claim C5: the driver name `sqlite3` is rejected without a
connection attempt. -/
theorem claim_C5_witness :
    (testDatabaseRaw { config := some ⟨"sqlite3", "dsn"⟩ } "").response.body.error =
      "Unsupported database driver: " ++ "sqlite3" ∧
    (testDatabaseRaw { config := some ⟨"sqlite3", "dsn"⟩ } "").sqlOpenCalled =
      false :=
  have h := claim_C5 { config := some ⟨"sqlite3", "dsn"⟩ } ⟨"sqlite3", "dsn"⟩
    "" rfl (by decide) (by decide)
  ⟨h.2.1, h.2.2⟩

/-- Claim C8: a request to the protected hello endpoint with an empty
`Mattermost-User-ID` header is answered 401 without invoking the wrapped
handler; with the header present the body is the literal greeting. -/
theorem claim_C8 (userID : String) :
    (userID = "" → (helloEndpoint userID).status = 401 ∧
      (helloEndpoint userID).handlerInvoked = false) ∧
    (userID ≠ "" → (helloEndpoint userID).body = "Hello, world!") := by
  constructor
  · intro h
    simp [helloEndpoint, mattermostAuthorizationRequired, h]
  · intro h
    simp [helloEndpoint, mattermostAuthorizationRequired, h, helloWorld]

/-- Witness for claim C8 at the empty and a non-empty header value. -/
theorem claim_C8_witness :
    (helloEndpoint "").status = 401 ∧
    (helloEndpoint "someuser").body = "Hello, world!" :=
  ⟨((claim_C8 "").1 rfl).1, (claim_C8 "someuser").2 (by decide)⟩

/-- Claim C9: when `runDatabaseTest` returns an error, both handlers
discard the partially populated result and answer 500 with a fresh record
holding only the error text and connection type — all numeric fields are 0,
even when the insert phase had completed before the failure. -/
theorem claim_C9 (rpcEnv : RpcEnv) (rawEnv : RawEnv) (param : String) :
    (∀ e, rpcEnv.getMasterDBFails = false →
      (runDatabaseTest rpcEnv.dbEnv rpcEnv.db rpcEnv.driverName
          (parsePageSize param).toNat).err = some e →
      (testDatabase rpcEnv param).response =
        ⟨500, { error := RunError.message e, connType := "rpc" }⟩ ∧
      (testDatabase rpcEnv param).response.body.insertTimeSeconds = 0 ∧
      (testDatabase rpcEnv param).response.body.totalQueryTimeSeconds = 0 ∧
      (testDatabase rpcEnv param).response.body.recordsQueried = 0 ∧
      (testDatabase rpcEnv param).response.body.pageSize = 0) ∧
    (∀ e cfg, rawEnv.config = some cfg →
      (cfg.driverName = databaseDriverMysql ∨
        cfg.driverName = databaseDriverPostgres) →
      rawEnv.openFails = false →
      (runDatabaseTest rawEnv.dbEnv rawEnv.db cfg.driverName
          (parsePageSize param).toNat).err = some e →
      (testDatabaseRaw rawEnv param).response =
        ⟨500, { error := RunError.message e, connType := "raw" }⟩ ∧
      (testDatabaseRaw rawEnv param).response.body.insertTimeSeconds = 0 ∧
      (testDatabaseRaw rawEnv param).response.body.totalQueryTimeSeconds =
        0 ∧
      (testDatabaseRaw rawEnv param).response.body.recordsQueried = 0 ∧
      (testDatabaseRaw rawEnv param).response.body.pageSize = 0) := by
  constructor
  · intro e hget herr
    have hresp : (testDatabase rpcEnv param).response =
        ⟨500, { error := RunError.message e, connType := "rpc" }⟩ := by
      unfold testDatabase
      simp [hget, herr]
    rw [hresp]
    exact ⟨rfl, rfl, rfl, rfl, rfl⟩
  · intro e cfg hc hd ho herr
    have hresp : (testDatabaseRaw rawEnv param).response =
        ⟨500, { error := RunError.message e, connType := "raw" }⟩ := by
      unfold testDatabaseRaw
      simp [hc, hd, ho, herr]
    rw [hresp]
    exact ⟨rfl, rfl, rfl, rfl, rfl⟩

/-- Witness for claim C9: the scan query fails at offset 0 after a
completed insert phase (with a nonzero measured insert duration), yet the
error response reports `insert_time_seconds = 0`. -/
theorem claim_C9_witness :
    (testDatabase
        { dbEnv := { queryFailsAtOffset := some 0, insertDuration := 1 } }
        "").response.body.insertTimeSeconds = 0 := by
  have herr : (runDatabaseTest
      { queryFailsAtOffset := some 0, insertDuration := 1 } {} "postgres"
      100).err = some (RunError.query 0) := by
    rw [run_insert_branch
      { queryFailsAtOffset := some 0, insertDuration := 1 } {} "postgres"
      100 rfl rfl (by decide) rfl rfl rfl rfl]
    rw [(scanPhase_spec _ _ _ _).2.1]
    rw [scanRun]
    rw [dif_pos (by decide)]
    rw [if_pos rfl]
  exact ((claim_C9
    { dbEnv := { queryFailsAtOffset := some 0, insertDuration := 1 } } {}
    "").1 (RunError.query 0) rfl herr).2.1

/-- The RPC handler depends on the request only through the parsed page
size. -/
theorem testDatabase_param_congr (env : RpcEnv) (p1 p2 : String)
    (h : parsePageSize p1 = parsePageSize p2) :
    testDatabase env p1 = testDatabase env p2 := by
  unfold testDatabase
  rw [h]

/-- The raw handler depends on the request only through the parsed page
size. -/
theorem testDatabaseRaw_param_congr (env : RawEnv) (p1 p2 : String)
    (h : parsePageSize p1 = parsePageSize p2) :
    testDatabaseRaw env p1 = testDatabaseRaw env p2 := by
  unfold testDatabaseRaw
  rw [h]

/-- Claim C10: a `page_size` value that `Atoi` cannot parse silently falls
back to the default 100 on both endpoints, and the handler outcome is
identical to that of an absent parameter — malformed input is
indistinguishable from no input, and no error is returned for it. -/
theorem claim_C10 (rpcEnv : RpcEnv) (rawEnv : RawEnv) (param : String)
    (h : atoi param = none) :
    (testDatabase rpcEnv param).pageSizeUsed = 100 ∧
    (testDatabaseRaw rawEnv param).pageSizeUsed = 100 ∧
    testDatabase rpcEnv param = testDatabase rpcEnv "" ∧
    testDatabaseRaw rawEnv param = testDatabaseRaw rawEnv "" := by
  have hp : parsePageSize param = 100 :=
    parsePageSize_default param (Or.inr (Or.inl h))
  have hp2 : parsePageSize param = parsePageSize "" := by rw [hp]; rfl
  refine ⟨?_, ?_, testDatabase_param_congr _ _ _ hp2,
    testDatabaseRaw_param_congr _ _ _ hp2⟩
  · rw [testDatabase_pageSizeUsed, hp]
  · rw [testDatabaseRaw_pageSizeUsed, hp]

/-- Witness for claim C10 at the malformed parameter value `abc`. -/
theorem claim_C10_witness :
    testDatabase {} "abc" = testDatabase {} "" ∧
    (testDatabaseRaw {} "abc").pageSizeUsed = 100 :=
  have h := claim_C10 {} {} "abc" (by decide)
  ⟨h.2.2.1, h.2.1⟩
